import Mathlib

/-!
Verification of the organ-generation pipeline (organ scaler, bioink
formulation engine, material calculator) of the bioprinting repository.

The numeric Python code is embedded shallowly: float arithmetic is modelled
by exact arithmetic (inputs and catalog constants in ℚ; the transcendental
power/log based quantities in ℝ), Python exceptions by an Except monad with
an explicit error type, and the per-organ dictionaries by if-chains over the
string keys, mirroring dict lookup.
-/

/-- Errors raised by the Python code: ValueError (unsupported organ or
non-coercible input), ZeroDivisionError, KeyError (missing dict key). -/
inductive PyErr where
  | valueError
  | zeroDivision
  | keyError
deriving DecidableEq

/-- A raw input value handed to the scaler. Python coerces it with
float()/int(); a value on which that coercion raises is modelled by the
nonNumeric constructor, a coercible one by its exact numeric value. -/
inductive PyVal where
  | num (q : ℚ)
  | nonNumeric
deriving DecidableEq

/-- Python float(x): succeeds exactly on numeric input. -/
def pyFloat : PyVal → Except PyErr ℚ
  | .num q => .ok q
  | .nonNumeric => .error .valueError

/-- Python int(x): truncation toward zero of a numeric input. -/
def pyInt : PyVal → Except PyErr ℤ
  | .num q => .ok (if q < 0 then ⌈q⌉ else ⌊q⌋)
  | .nonNumeric => .error .valueError

/-- Static per-organ constants of OrganGenerator.organ_parameters:
base volume (ml), base dimensions (cm), height/weight scaling exponents. -/
structure OrganParams where
  base_volume : ℚ
  length : ℚ
  width : ℚ
  height : ℚ
  h_exp : ℚ
  w_exp : ℚ
deriving DecidableEq

/-- The heart entry of organ_parameters. -/
def heartParams : OrganParams := ⟨310, 12, 8.5, 6, 0.7, 0.3⟩

/-- The liver entry of organ_parameters. -/
def liverParams : OrganParams := ⟨1400, 26, 15, 8, 0.8, 0.2⟩

/-- The kidney entry of organ_parameters. -/
def kidneyParams : OrganParams := ⟨150, 11, 6, 3, 0.6, 0.4⟩

/-- The ear entry of organ_parameters. -/
def earParams : OrganParams := ⟨8, 6.5, 3.5, 2.5, 0.9, 0.1⟩

/-- Dict lookup in OrganGenerator.organ_parameters. -/
def organ_parameters (o : String) : Option OrganParams :=
  if o = "heart" then some heartParams
  else if o = "liver" then some liverParams
  else if o = "kidney" then some kidneyParams
  else if o = "ear" then some earParams
  else none

/-- Age factor of calculate_organ_size: 0.2 percent shrinkage per year
after age 30, not clamped below. -/
def ageFactor (a : ℤ) : ℝ := if 30 < a then 1 - ((a : ℝ) - 30) * 0.002 else 1

/-- Combined scale factor of calculate_organ_size:
(height/175)^h_exp * (weight/70)^w_exp * age_factor, real powers. -/
noncomputable def organScale (p : OrganParams) (h w : ℚ) (a : ℤ) : ℝ :=
  ((h : ℝ) / 175) ^ (p.h_exp : ℝ) * ((w : ℝ) / 70) ^ (p.w_exp : ℝ) * ageFactor a

/-- Scaled linear dimensions record returned by calculate_organ_size. -/
structure Dimensions3 where
  length : ℝ
  width : ℝ
  height : ℝ

/-- Result record of calculate_organ_size. -/
structure OrganSize where
  volume : ℝ
  dimensions : Dimensions3
  scale_factor : ℝ

/-- Body of calculate_organ_size after input coercion: volume scales by the
scale factor, each dimension by its cube root. -/
noncomputable def organSize (p : OrganParams) (h w : ℚ) (a : ℤ) : OrganSize :=
  { volume := (p.base_volume : ℝ) * organScale p h w a
    dimensions := ⟨(p.length : ℝ) * organScale p h w a ^ ((1 : ℝ) / 3),
                   (p.width : ℝ) * organScale p h w a ^ ((1 : ℝ) / 3),
                   (p.height : ℝ) * organScale p h w a ^ ((1 : ℝ) / 3)⟩
    scale_factor := organScale p h w a }

/-- OrganGenerator.calculate_organ_size: checks the organ catalog first,
then coerces height, weight, age in that order (first failure raises),
then computes the scaled size. No positivity check is performed. -/
noncomputable def calculate_organ_size (o : String) (hv wv av : PyVal) :
    Except PyErr OrganSize :=
  match organ_parameters o with
  | none => .error .valueError
  | some p =>
    match pyFloat hv with
    | .error e => .error e
    | .ok h =>
      match pyFloat wv with
      | .error e => .error e
      | .ok w =>
        match pyInt av with
        | .error e => .error e
        | .ok a => .ok (organSize p h w a)

/-- Triangulated mesh: vertex list plus triangular faces, as produced by
the hull triangulation. Only uniform scaling matters to the claims. -/
structure Mesh where
  vertices : List (ℚ × ℚ × ℚ)
  faces : List (ℕ × ℕ × ℕ)
deriving DecidableEq

/-- trimesh.apply_scale with a uniform factor: every vertex coordinate is
multiplied by the factor. -/
def apply_scale (c : ℚ) (m : Mesh) : Mesh :=
  { m with vertices := m.vertices.map (fun v => (c * v.1, c * v.2.1, c * v.2.2)) }

/-- Whether the first character list begins the second one. -/
def charsBeginWith : List Char → List Char → Bool
  | [], _ => true
  | _ :: _, [] => false
  | p :: ps, c :: cs => p == c && charsBeginWith ps cs

/-- Whether the first character list occurs contiguously in the second,
the semantics of the Python substring operator. -/
def charsContain (pat : List Char) : List Char → Bool
  | [] => charsBeginWith pat []
  | c :: cs => charsBeginWith pat (c :: cs) || charsContain pat cs

/-- Python substring test: pat in s. -/
def strContains (s pat : String) : Bool := charsContain pat.toList s.toList

/-- Python str.lower(), characterwise. -/
def lowerStr (s : String) : String := String.mk (s.toList.map Char.toLower)

/-- OrganGenerator.apply_special_requirements: a case-insensitive substring
match on the free-text requirements scales the mesh by 1.1 (enlarged) or
else by 0.9 (reduced); otherwise the mesh is returned unchanged. -/
def apply_special_requirements (m : Mesh) (req : String) : Mesh :=
  if strContains (lowerStr req) ("enlarged") then apply_scale 1.1 m
  else if strContains (lowerStr req) ("reduced") then apply_scale 0.9 m
  else m

/-- One entry of the components dict built by calculate_bioink. -/
structure ComponentEntry where
  name : String
  concentration : ℚ
  volume_ml : ℚ
  mass_g : ℚ
deriving DecidableEq

/-- Static per-organ formulation of BioinkCalculator.bioink_formulations. -/
structure FormulationSpec where
  base_formulation : List (String × ℚ)
  crosslinking_agents : List (String × ℚ)
  cell_density : ℚ
  printing_viscosity : ℚ
deriving DecidableEq

/-- The heart entry of bioink_formulations. -/
def heartBioinkSpec : FormulationSpec :=
  { base_formulation := [("alginate", 0.02), ("gelatin", 0.05),
      ("hyaluronic_acid", 0.01), ("collagen", 0.03), ("fibrinogen", 0.002)]
    crosslinking_agents := [("calcium_chloride", 0.001), ("thrombin", 0.0001)]
    cell_density := 20000000
    printing_viscosity := 1500 }

/-- The liver entry of bioink_formulations. -/
def liverBioinkSpec : FormulationSpec :=
  { base_formulation := [("alginate", 0.015), ("gelatin", 0.06),
      ("hyaluronic_acid", 0.008), ("chitosan", 0.01), ("decellularized_ecm", 0.02)]
    crosslinking_agents := [("calcium_chloride", 0.0008), ("genipin", 0.0002)]
    cell_density := 15000000
    printing_viscosity := 1200 }

/-- The kidney entry of bioink_formulations. -/
def kidneyBioinkSpec : FormulationSpec :=
  { base_formulation := [("alginate", 0.025), ("gelatin", 0.04),
      ("hyaluronic_acid", 0.012), ("peg_diacrylate", 0.015), ("laminin", 0.001)]
    crosslinking_agents := [("calcium_chloride", 0.0012), ("photoinitiator", 0.0001)]
    cell_density := 25000000
    printing_viscosity := 1800 }

/-- The ear entry of bioink_formulations. -/
def earBioinkSpec : FormulationSpec :=
  { base_formulation := [("alginate", 0.018), ("gelatin", 0.045),
      ("hyaluronic_acid", 0.006), ("chondroitin_sulfate", 0.008), ("agarose", 0.005)]
    crosslinking_agents := [("calcium_chloride", 0.0009)]
    cell_density := 30000000
    printing_viscosity := 2000 }

/-- Dict lookup in BioinkCalculator.bioink_formulations. -/
def bioink_formulations (o : String) : Option FormulationSpec :=
  if o = "heart" then some heartBioinkSpec
  else if o = "liver" then some liverBioinkSpec
  else if o = "kidney" then some kidneyBioinkSpec
  else if o = "ear" then some earBioinkSpec
  else none

/-- Dict lookup in BioinkCalculator.material_densities (g/ml). -/
def material_densities (n : String) : Option ℚ :=
  if n = "alginate" then some 1.6
  else if n = "gelatin" then some 1.27
  else if n = "hyaluronic_acid" then some 1.2
  else if n = "collagen" then some 1.3
  else if n = "fibrinogen" then some 1.4
  else if n = "chitosan" then some 1.35
  else if n = "decellularized_ecm" then some 1.1
  else if n = "peg_diacrylate" then some 1.12
  else if n = "laminin" then some 1.2
  else if n = "chondroitin_sulfate" then some 1.25
  else if n = "agarose" then some 1.02
  else if n = "calcium_chloride" then some 2.15
  else if n = "thrombin" then some 1.3
  else if n = "genipin" then some 1.27
  else if n = "photoinitiator" then some 1.1
  else none

/-- Component loops of calculate_bioink: for each (name, concentration) an
entry with volume = total * concentration and mass = volume * density is
built, and the volumes accumulate into the running solids total. A missing
density key raises KeyError, as the Python dict access would. -/
def processComponents (total : ℚ) : List (String × ℚ) → Except PyErr (List ComponentEntry × ℚ)
  | [] => .ok ([], 0)
  | pc :: rest =>
    match material_densities pc.1 with
    | none => .error .keyError
    | some d =>
      match processComponents total rest with
      | .error e => .error e
      | .ok pr => .ok (⟨pc.1, pc.2, total * pc.2, total * pc.2 * d⟩ :: pr.1,
                       total * pc.2 + pr.2)

/-- Printing time record of BioinkCalculator.estimate_printing_time. -/
structure PrintTime where
  hours : ℚ
  minutes : ℚ
  rate_ml_per_hour : ℚ
deriving DecidableEq

/-- Per-organ printing rates (ml/hour) with default 10. -/
def printing_rates (o : String) : ℚ :=
  if o = "heart" then 8
  else if o = "liver" then 12
  else if o = "kidney" then 10
  else if o = "ear" then 15
  else 10

/-- BioinkCalculator.estimate_printing_time. -/
def estimate_printing_time (volume : ℚ) (o : String) : PrintTime :=
  ⟨volume / printing_rates o, volume / printing_rates o * 60, printing_rates o⟩

/-- BioinkCalculator.get_shelf_life with default 24 hours. -/
def get_shelf_life (o : String) : ℚ :=
  if o = "heart" then 24
  else if o = "liver" then 48
  else if o = "kidney" then 36
  else if o = "ear" then 72
  else 24

/-- Result record of calculate_bioink. The two transcendental fields of the
Python dict (adjustment_factor and the adjusted cell_density, built from the
weight logarithm) are factored into the separate real-valued definitions
calculate_patient_adjustment and adjusted_cell_density below, so that the
volume and mass arithmetic of the record stays exact and computable. -/
structure BioinkResult where
  organ_type : String
  total_volume : ℚ
  components : List ComponentEntry
  printing_viscosity : ℚ
  patient_weight : ℚ
  estimated_printing_time : PrintTime
  shelf_life_hours : ℚ
deriving DecidableEq

/-- BioinkCalculator.calculate_bioink: catalog check, 1.25 waste factor,
component loops, then the solvent residual entry pbs_medium, whose
concentration divides by total_volume — the Python float division raises
ZeroDivisionError when total_volume is zero, modelled by the guard. -/
def calculate_bioink (o : String) (organ_volume patient_weight : ℚ) :
    Except PyErr BioinkResult :=
  match bioink_formulations o with
  | none => .error .valueError
  | some spec =>
    let total_volume := organ_volume * 1.25
    match processComponents total_volume
        (spec.base_formulation ++ spec.crosslinking_agents) with
    | .error e => .error e
    | .ok pr =>
      if total_volume = 0 then .error .zeroDivision
      else
        let solvent := total_volume - pr.2
        .ok { organ_type := o
              total_volume := total_volume
              components := pr.1 ++
                [⟨"pbs_medium", solvent / total_volume, solvent, solvent * 1⟩]
              printing_viscosity := spec.printing_viscosity
              patient_weight := patient_weight
              estimated_printing_time := estimate_printing_time total_volume o
              shelf_life_hours := get_shelf_life o }

/-- BioinkCalculator.calculate_patient_adjustment: logarithmic scaling
0.8 + 0.4 * log(weight/70) / log 2 clamped to [0.5, 1.5] for positive
weight, and exactly 1 otherwise. -/
noncomputable def calculate_patient_adjustment (w : ℚ) : ℝ :=
  if 0 < w then
    max 0.5 (min 1.5 (0.8 + 0.4 * Real.log ((w : ℝ) / 70) / Real.log 2))
  else 1

/-- Adjusted cell density of the bioink dict: catalog cell density times the
patient adjustment factor. -/
noncomputable def adjusted_cell_density (spec : FormulationSpec) (w : ℚ) : ℝ :=
  (spec.cell_density : ℝ) * calculate_patient_adjustment w

/-- One entry of MaterialCalculator.scaffold_materials: the computation only
inspects the density, the optional porosity and the optional concentration;
the remaining descriptive keys of the source dict (fiber diameter, layer
thickness, elasticity and the like) never enter any arithmetic. -/
structure ScaffoldEntry where
  density : ℚ
  porosity : Option ℚ
  concentration : Option ℚ
deriving DecidableEq

/-- The heart entry of MaterialCalculator.scaffold_materials. -/
def heartScaffold : List (String × ScaffoldEntry) :=
  [("pcl_fibers", ⟨1.145, some 0.85, none⟩),
   ("collagen_matrix", ⟨1.3, none, some 0.05⟩),
   ("elastin_fibers", ⟨1.2, none, some 0.02⟩),
   ("conductive_nanoparticles", ⟨5.2, none, some 0.001⟩)]

/-- The liver entry of MaterialCalculator.scaffold_materials. -/
def liverScaffold : List (String × ScaffoldEntry) :=
  [("pla_framework", ⟨1.24, some 0.80, none⟩),
   ("hepatocyte_matrix", ⟨1.1, none, some 0.08⟩),
   ("growth_factors", ⟨1.0, none, some 0.0005⟩),
   ("vascular_channels", ⟨1.19, none, none⟩)]

/-- The kidney entry of MaterialCalculator.scaffold_materials. -/
def kidneyScaffold : List (String × ScaffoldEntry) :=
  [("pga_scaffold", ⟨1.53, some 0.90, none⟩),
   ("nephron_matrix", ⟨1.25, none, some 0.06⟩),
   ("basement_membrane", ⟨1.1, none, some 0.03⟩),
   ("filtration_membrane", ⟨1.4, none, none⟩)]

/-- The ear entry of MaterialCalculator.scaffold_materials. -/
def earScaffold : List (String × ScaffoldEntry) :=
  [("cartilage_scaffold", ⟨1.2, some 0.75, none⟩),
   ("chondrocyte_matrix", ⟨1.15, none, some 0.07⟩),
   ("shape_memory_polymer", ⟨1.05, none, some 0.02⟩),
   ("surface_coating", ⟨1.3, none, none⟩)]

/-- Dict lookup in MaterialCalculator.scaffold_materials. The liver entry
vascular_channels, the kidney entry filtration_membrane and the ear entry
surface_coating carry neither porosity nor concentration and therefore fall
through both branches of calculate_scaffold_materials. -/
def scaffold_profiles (o : String) : Option (List (String × ScaffoldEntry)) :=
  if o = "heart" then some heartScaffold
  else if o = "liver" then some liverScaffold
  else if o = "kidney" then some kidneyScaffold
  else if o = "ear" then some earScaffold
  else none

/-- Dict lookup in MaterialCalculator.material_costs (USD per kg or liter). -/
def material_costs (n : String) : Option ℚ :=
  if n = "alginate" then some 45.0
  else if n = "gelatin" then some 25.0
  else if n = "hyaluronic_acid" then some 280.0
  else if n = "collagen" then some 180.0
  else if n = "chitosan" then some 35.0
  else if n = "peg_diacrylate" then some 95.0
  else if n = "calcium_chloride" then some 15.0
  else if n = "pbs_medium" then some 8.0
  else if n = "pcl_fibers" then some 120.0
  else if n = "pla_framework" then some 85.0
  else if n = "pga_scaffold" then some 150.0
  else none

/-- Python material_name.split with the underscore separator, first token:
the characters before the first underscore. -/
def costKey (s : String) : String :=
  String.mk (s.toList.takeWhile (fun c => c != '_'))

/-- Cost-rate lookup of calculate_scaffold_materials: the first
underscore-delimited token of the name, defaulting to 50 USD per kg. -/
def scaffold_cost_rate (n : String) : ℚ := (material_costs (costKey n)).getD 50

/-- Output entry of calculate_scaffold_materials. -/
structure ScaffoldMat where
  mass_g : ℚ
  volume_ml : Option ℚ
  concentration : Option ℚ
  cost_usd : ℚ
deriving DecidableEq

/-- MaterialCalculator.calculate_scaffold_materials: porosity entries get a
solid volume of volume * (1 - porosity) * 0.3; concentration entries get
mass = volume * concentration * density; entries with neither are skipped. -/
def calculate_scaffold_materials (cfg : List (String × ScaffoldEntry)) (volume : ℚ) :
    List (String × ScaffoldMat) :=
  cfg.filterMap (fun pe =>
    match pe.2.porosity with
    | some p =>
      some (pe.1, ⟨volume * (1 - p) * 0.3 * pe.2.density,
                   some (volume * (1 - p) * 0.3), none,
                   volume * (1 - p) * 0.3 * pe.2.density * scaffold_cost_rate pe.1 / 1000⟩)
    | none =>
      match pe.2.concentration with
      | some conc =>
        some (pe.1, ⟨volume * conc * pe.2.density, none, some conc,
                     volume * conc * pe.2.density * scaffold_cost_rate pe.1 / 1000⟩)
      | none => none)

/-- Cost per mg of the growth-factor catalog entries. -/
def growth_factor_cost_per_mg (n : String) : Option ℚ :=
  if n = "vegf" then some 250
  else if n = "bfgf" then some 180
  else if n = "tgf_beta" then some 320
  else if n = "pdgf" then some 290
  else none

/-- Organ-specific required growth factors of calculate_biological_materials;
the trailing else branch of the source covers the ear. -/
def required_growth_factors (o : String) : List String :=
  if o = "heart" then ["vegf", "bfgf", "pdgf"]
  else if o = "liver" then ["vegf", "bfgf", "tgf_beta"]
  else if o = "kidney" then ["vegf", "tgf_beta", "pdgf"]
  else ["tgf_beta", "bfgf"]

/-- Output entry of calculate_biological_materials: required amount and its
cost in USD. -/
structure BioMat where
  amount : ℚ
  cost_usd : ℚ
deriving DecidableEq

/-- Extracellular-protein catalog: name, concentration mg/ml, cost per g. -/
def extracellular_proteins : List (String × ℚ × ℚ) :=
  [("collagen_i", 5, 45), ("collagen_iv", 2, 85), ("laminin", 1, 120),
   ("fibronectin", 0.5, 95), ("elastin", 3, 65)]

/-- Cell-nutrient catalog: name, concentration mg/ml, cost per kg. -/
def cell_nutrients : List (String × ℚ × ℚ) :=
  [("glucose", 4.5, 2.5), ("amino_acids", 0.8, 25), ("vitamins", 0.1, 150),
   ("minerals", 0.3, 8)]

/-- MaterialCalculator.calculate_biological_materials: growth factors at a
flat 50 ng/ml target, then all proteins and nutrients scaled linearly. -/
def calculate_biological_materials (o : String) (volume : ℚ) :
    List (String × BioMat) :=
  ((required_growth_factors o).filterMap (fun n =>
    match growth_factor_cost_per_mg n with
    | some c => some (n, (⟨volume * 50 / 1000000, volume * 50 / 1000000 * c⟩ : BioMat))
    | none => none))
  ++ extracellular_proteins.map (fun pr =>
       (pr.1, (⟨volume * pr.2.1 / 1000, volume * pr.2.1 / 1000 * pr.2.2⟩ : BioMat)))
  ++ cell_nutrients.map (fun pr =>
       (pr.1, (⟨volume * pr.2.1 / 1000, volume * pr.2.1 / 1000 * pr.2.2 / 1000⟩ : BioMat)))

/-- Post-processing record of calculate_post_processing_materials. -/
structure PostProcessing where
  culture_volume_ml : ℚ
  changes_per_week : ℚ
  culture_duration_weeks : ℚ
  cost_per_liter : ℚ
  culture_total_cost : ℚ
  antibiotics_ml : ℚ
  antibiotics_cost_per_ml : ℚ
  maturation_cost : ℚ
  electrical_stimulation : Bool
  flow_perfusion : Bool
  quality_control : List (String × ℚ)
deriving DecidableEq

/-- MaterialCalculator.calculate_post_processing_materials. -/
def calculate_post_processing_materials (o : String) (volume : ℚ) : PostProcessing :=
  { culture_volume_ml := volume * 5
    changes_per_week := 3
    culture_duration_weeks := 4
    cost_per_liter := 25.0
    culture_total_cost := volume * 5 * 3 * 4 / 1000 * 25.0
    antibiotics_ml := volume * 0.01
    antibiotics_cost_per_ml := 0.15
    maturation_cost := volume * 2.5
    electrical_stimulation := o == "heart"
    flow_perfusion := o == "liver" || o == "kidney"
    quality_control := [("histology_staining", 150.0), ("immunofluorescence", 200.0),
                        ("mechanical_testing", 300.0), ("viability_assays", 100.0)] }

/-- Cost rollup record of calculate_total_cost. -/
structure CostBreakdown where
  scaffold_materials : ℚ
  biological_materials : ℚ
  culture_medium : ℚ
  antibiotics : ℚ
  maturation : ℚ
  quality_control : ℚ
  labor_estimate : ℚ
  equipment_usage : ℚ
  subtotal : ℚ
  overhead_20_percent : ℚ
  total_estimated_cost : ℚ
deriving DecidableEq

/-- MaterialCalculator.calculate_total_cost: the eight category costs, their
sum as subtotal, 20 percent overhead, and the grand total. -/
def calculate_total_cost (scaffold : List (String × ScaffoldMat))
    (bio : List (String × BioMat)) (post : PostProcessing) : CostBreakdown :=
  let sc := (scaffold.map (fun pr => pr.2.cost_usd)).sum
  let bc := (bio.map (fun pr => pr.2.cost_usd)).sum
  let cm := post.culture_total_cost
  let ab := post.antibiotics_ml * post.antibiotics_cost_per_ml
  let mt := post.maturation_cost
  let qc := (post.quality_control.map (fun pr => pr.2)).sum
  let st := sc + bc + cm + ab + mt + qc + 2500.0 + 800.0
  { scaffold_materials := sc
    biological_materials := bc
    culture_medium := cm
    antibiotics := ab
    maturation := mt
    quality_control := qc
    labor_estimate := 2500.0
    equipment_usage := 800.0
    subtotal := st
    overhead_20_percent := st * 0.20
    total_estimated_cost := st + st * 0.20 }

/-- Result record of calculate_materials (the static safety and storage
metadata dicts carry no computed values and are omitted). -/
structure MaterialRequirement where
  organ_type : String
  bioink_volume_ml : ℚ
  scaffold_materials : List (String × ScaffoldMat)
  biological_materials : List (String × BioMat)
  post_processing : PostProcessing
  cost_breakdown : CostBreakdown
deriving DecidableEq

/-- MaterialCalculator.calculate_materials: catalog check, then scaffold,
biological and post-processing requirements and the cost rollup. -/
def calculate_materials (o : String) (bioink_volume : ℚ) :
    Except PyErr MaterialRequirement :=
  match scaffold_profiles o with
  | none => .error .valueError
  | some cfg =>
    let s := calculate_scaffold_materials cfg bioink_volume
    let b := calculate_biological_materials o bioink_volume
    let p := calculate_post_processing_materials o bioink_volume
    .ok { organ_type := o
          bioink_volume_ml := bioink_volume
          scaffold_materials := s
          biological_materials := b
          post_processing := p
          cost_breakdown := calculate_total_cost s b p }

/-- The concrete heart formulation returned at organ volume 8 ml and patient
weight 70 kg: total volume 10 ml, solids 1.131 ml, solvent 8.869 ml. -/
def heartFormulation8 : BioinkResult :=
  { organ_type := "heart"
    total_volume := 10
    components := [⟨"alginate", 0.02, 0.2, 0.32⟩, ⟨"gelatin", 0.05, 0.5, 0.635⟩,
      ⟨"hyaluronic_acid", 0.01, 0.1, 0.12⟩, ⟨"collagen", 0.03, 0.3, 0.39⟩,
      ⟨"fibrinogen", 0.002, 0.02, 0.028⟩, ⟨"calcium_chloride", 0.001, 0.01, 0.0215⟩,
      ⟨"thrombin", 0.0001, 0.001, 0.0013⟩, ⟨"pbs_medium", 0.8869, 8.869, 8.869⟩]
    printing_viscosity := 1500
    patient_weight := 70
    estimated_printing_time := ⟨1.25, 75, 8⟩
    shelf_life_hours := 24 }

/-- The concrete heart formulation returned at organ volume -100 ml and
patient weight 70 kg: total volume -125 ml, accumulated solids volume
-14.1375 ml (exceeding the total), solvent residual -110.8625 ml. -/
def heartFormulationNeg : BioinkResult :=
  { organ_type := "heart"
    total_volume := -125
    components := [⟨"alginate", 0.02, -2.5, -4⟩, ⟨"gelatin", 0.05, -6.25, -7.9375⟩,
      ⟨"hyaluronic_acid", 0.01, -1.25, -1.5⟩, ⟨"collagen", 0.03, -3.75, -4.875⟩,
      ⟨"fibrinogen", 0.002, -0.25, -0.35⟩, ⟨"calcium_chloride", 0.001, -0.125, -0.26875⟩,
      ⟨"thrombin", 0.0001, -0.0125, -0.01625⟩,
      ⟨"pbs_medium", 0.8869, -110.8625, -110.8625⟩]
    printing_viscosity := 1500
    patient_weight := 70
    estimated_printing_time := ⟨-15.625, -937.5, 8⟩
    shelf_life_hours := 24 }

/-- The concrete material-requirement record for the kidney at bioink volume
100 ml, written through the component calculators. -/
def kidneyMaterialOut : MaterialRequirement :=
  { organ_type := "kidney"
    bioink_volume_ml := 100
    scaffold_materials := calculate_scaffold_materials kidneyScaffold 100
    biological_materials := calculate_biological_materials ("kidney") 100
    post_processing := calculate_post_processing_materials ("kidney") 100
    cost_breakdown := calculate_total_cost (calculate_scaffold_materials kidneyScaffold 100)
      (calculate_biological_materials ("kidney") 100)
      (calculate_post_processing_materials ("kidney") 100) }

/-- Volume of the named component in a formulation, zero when absent. -/
def componentVolume (f : BioinkResult) (n : String) : ℚ :=
  ((f.components.find? (fun c => c.name == n)).map (fun c => c.volume_ml)).getD 0

/-- Accumulated volume of all components other than the named one. -/
def solidsVolumeExcept (f : BioinkResult) (n : String) : ℚ :=
  ((f.components.filter (fun c => c.name != n)).map (fun c => c.volume_ml)).sum

theorem processComponents_sum (total : ℚ) :
    ∀ (l : List (String × ℚ)) (entries : List ComponentEntry) (solids : ℚ),
    processComponents total l = .ok (entries, solids) →
    (entries.map (fun c => c.volume_ml)).sum = solids := by
  intro l
  induction l with
  | nil =>
    intro entries solids h
    simp only [processComponents, Except.ok.injEq, Prod.mk.injEq] at h
    rw [← h.1, ← h.2]
    simp
  | cons pc rest ih =>
    intro entries solids h
    simp only [processComponents] at h
    cases hd : material_densities pc.1 with
    | none => rw [hd] at h; simp at h
    | some d =>
      rw [hd] at h
      cases hrec : processComponents total rest with
      | error e => rw [hrec] at h; simp at h
      | ok pr =>
        rw [hrec] at h
        simp only [Except.ok.injEq, Prod.mk.injEq] at h
        rw [← h.1, ← h.2]
        simp only [List.map_cons, List.sum_cons]
        rw [ih pr.1 pr.2 (by rw [hrec])]

theorem md_alginate : material_densities ("alginate") = some 1.6 := by
  simp [material_densities]

theorem md_gelatin : material_densities ("gelatin") = some 1.27 := by
  simp [material_densities]

theorem md_ha : material_densities ("hyaluronic_acid") = some 1.2 := by
  simp [material_densities]

theorem md_collagen : material_densities ("collagen") = some 1.3 := by
  simp [material_densities]

theorem md_fibrinogen : material_densities ("fibrinogen") = some 1.4 := by
  simp [material_densities]

theorem md_chitosan : material_densities ("chitosan") = some 1.35 := by
  simp [material_densities]

theorem md_ecm : material_densities ("decellularized_ecm") = some 1.1 := by
  simp [material_densities]

theorem md_peg : material_densities ("peg_diacrylate") = some 1.12 := by
  simp [material_densities]

theorem md_laminin : material_densities ("laminin") = some 1.2 := by
  simp [material_densities]

theorem md_chondroitin : material_densities ("chondroitin_sulfate") = some 1.25 := by
  simp [material_densities]

theorem md_agarose : material_densities ("agarose") = some 1.02 := by
  simp [material_densities]

theorem md_cacl : material_densities ("calcium_chloride") = some 2.15 := by
  simp [material_densities]

theorem md_thrombin : material_densities ("thrombin") = some 1.3 := by
  simp [material_densities]

theorem md_genipin : material_densities ("genipin") = some 1.27 := by
  simp [material_densities]

theorem md_photoinitiator : material_densities ("photoinitiator") = some 1.1 := by
  simp [material_densities]

theorem bf_heart : bioink_formulations ("heart") = some heartBioinkSpec := by
  simp [bioink_formulations]

theorem bf_liver : bioink_formulations ("liver") = some liverBioinkSpec := by
  simp [bioink_formulations]

theorem bf_kidney : bioink_formulations ("kidney") = some kidneyBioinkSpec := by
  simp [bioink_formulations]

theorem bf_ear : bioink_formulations ("ear") = some earBioinkSpec := by
  simp [bioink_formulations]

theorem pr_heart : printing_rates ("heart") = 8 := by simp [printing_rates]

theorem pr_liver : printing_rates ("liver") = 12 := by simp [printing_rates]

theorem pr_kidney : printing_rates ("kidney") = 10 := by simp [printing_rates]

theorem pr_ear : printing_rates ("ear") = 15 := by simp [printing_rates]

theorem sl_heart : get_shelf_life ("heart") = 24 := by simp [get_shelf_life]

theorem sl_liver : get_shelf_life ("liver") = 48 := by simp [get_shelf_life]

theorem sl_kidney : get_shelf_life ("kidney") = 36 := by simp [get_shelf_life]

theorem sl_ear : get_shelf_life ("ear") = 72 := by simp [get_shelf_life]

/-- Symbolic evaluation of calculate_bioink on the heart catalog for any
nonzero organ volume. -/
theorem bioink_heart_ok (v w : ℚ) (hv : v ≠ 0) :
    calculate_bioink ("heart") v w = .ok
      { organ_type := "heart"
        total_volume := v * 1.25
        components := [
          ⟨"alginate", 0.02, v * 1.25 * 0.02, v * 1.25 * 0.02 * 1.6⟩,
          ⟨"gelatin", 0.05, v * 1.25 * 0.05, v * 1.25 * 0.05 * 1.27⟩,
          ⟨"hyaluronic_acid", 0.01, v * 1.25 * 0.01, v * 1.25 * 0.01 * 1.2⟩,
          ⟨"collagen", 0.03, v * 1.25 * 0.03, v * 1.25 * 0.03 * 1.3⟩,
          ⟨"fibrinogen", 0.002, v * 1.25 * 0.002, v * 1.25 * 0.002 * 1.4⟩,
          ⟨"calcium_chloride", 0.001, v * 1.25 * 0.001, v * 1.25 * 0.001 * 2.15⟩,
          ⟨"thrombin", 0.0001, v * 1.25 * 0.0001, v * 1.25 * 0.0001 * 1.3⟩,
          ⟨"pbs_medium", (v * 1.25 - v * 1.25 * 0.1131) / (v * 1.25),
            v * 1.25 - v * 1.25 * 0.1131, (v * 1.25 - v * 1.25 * 0.1131) * 1⟩]
        printing_viscosity := 1500
        patient_weight := w
        estimated_printing_time := ⟨v * 1.25 / 8, v * 1.25 / 8 * 60, 8⟩
        shelf_life_hours := 24 } := by
  have ht : ¬ (v * 1.25 = 0) := mul_ne_zero hv (by norm_num)
  simp only [calculate_bioink, bf_heart, heartBioinkSpec, List.cons_append, List.nil_append,
    processComponents, md_alginate, md_gelatin, md_ha, md_collagen, md_fibrinogen, md_cacl,
    md_thrombin, estimate_printing_time, pr_heart, sl_heart, ht, if_false,
    Except.ok.injEq, BioinkResult.mk.injEq, List.cons.injEq, ComponentEntry.mk.injEq]
  norm_num
  and_intros <;> ring

/-- Symbolic evaluation of calculate_bioink on the liver catalog for any
nonzero organ volume. -/
theorem bioink_liver_ok (v w : ℚ) (hv : v ≠ 0) :
    calculate_bioink ("liver") v w = .ok
      { organ_type := "liver"
        total_volume := v * 1.25
        components := [
          ⟨"alginate", 0.015, v * 1.25 * 0.015, v * 1.25 * 0.015 * 1.6⟩,
          ⟨"gelatin", 0.06, v * 1.25 * 0.06, v * 1.25 * 0.06 * 1.27⟩,
          ⟨"hyaluronic_acid", 0.008, v * 1.25 * 0.008, v * 1.25 * 0.008 * 1.2⟩,
          ⟨"chitosan", 0.01, v * 1.25 * 0.01, v * 1.25 * 0.01 * 1.35⟩,
          ⟨"decellularized_ecm", 0.02, v * 1.25 * 0.02, v * 1.25 * 0.02 * 1.1⟩,
          ⟨"calcium_chloride", 0.0008, v * 1.25 * 0.0008, v * 1.25 * 0.0008 * 2.15⟩,
          ⟨"genipin", 0.0002, v * 1.25 * 0.0002, v * 1.25 * 0.0002 * 1.27⟩,
          ⟨"pbs_medium", (v * 1.25 - v * 1.25 * 0.114) / (v * 1.25),
            v * 1.25 - v * 1.25 * 0.114, (v * 1.25 - v * 1.25 * 0.114) * 1⟩]
        printing_viscosity := 1200
        patient_weight := w
        estimated_printing_time := ⟨v * 1.25 / 12, v * 1.25 / 12 * 60, 12⟩
        shelf_life_hours := 48 } := by
  have ht : ¬ (v * 1.25 = 0) := mul_ne_zero hv (by norm_num)
  simp only [calculate_bioink, bf_liver, liverBioinkSpec, List.cons_append, List.nil_append,
    processComponents, md_alginate, md_gelatin, md_ha, md_chitosan, md_ecm, md_cacl,
    md_genipin, estimate_printing_time, pr_liver, sl_liver, ht, if_false,
    Except.ok.injEq, BioinkResult.mk.injEq, List.cons.injEq, ComponentEntry.mk.injEq]
  norm_num
  and_intros <;> ring

/-- Symbolic evaluation of calculate_bioink on the kidney catalog for any
nonzero organ volume. -/
theorem bioink_kidney_ok (v w : ℚ) (hv : v ≠ 0) :
    calculate_bioink ("kidney") v w = .ok
      { organ_type := "kidney"
        total_volume := v * 1.25
        components := [
          ⟨"alginate", 0.025, v * 1.25 * 0.025, v * 1.25 * 0.025 * 1.6⟩,
          ⟨"gelatin", 0.04, v * 1.25 * 0.04, v * 1.25 * 0.04 * 1.27⟩,
          ⟨"hyaluronic_acid", 0.012, v * 1.25 * 0.012, v * 1.25 * 0.012 * 1.2⟩,
          ⟨"peg_diacrylate", 0.015, v * 1.25 * 0.015, v * 1.25 * 0.015 * 1.12⟩,
          ⟨"laminin", 0.001, v * 1.25 * 0.001, v * 1.25 * 0.001 * 1.2⟩,
          ⟨"calcium_chloride", 0.0012, v * 1.25 * 0.0012, v * 1.25 * 0.0012 * 2.15⟩,
          ⟨"photoinitiator", 0.0001, v * 1.25 * 0.0001, v * 1.25 * 0.0001 * 1.1⟩,
          ⟨"pbs_medium", (v * 1.25 - v * 1.25 * 0.0943) / (v * 1.25),
            v * 1.25 - v * 1.25 * 0.0943, (v * 1.25 - v * 1.25 * 0.0943) * 1⟩]
        printing_viscosity := 1800
        patient_weight := w
        estimated_printing_time := ⟨v * 1.25 / 10, v * 1.25 / 10 * 60, 10⟩
        shelf_life_hours := 36 } := by
  have ht : ¬ (v * 1.25 = 0) := mul_ne_zero hv (by norm_num)
  simp only [calculate_bioink, bf_kidney, kidneyBioinkSpec, List.cons_append, List.nil_append,
    processComponents, md_alginate, md_gelatin, md_ha, md_peg, md_laminin, md_cacl,
    md_photoinitiator, estimate_printing_time, pr_kidney, sl_kidney, ht, if_false,
    Except.ok.injEq, BioinkResult.mk.injEq, List.cons.injEq, ComponentEntry.mk.injEq]
  norm_num
  and_intros <;> ring

/-- Symbolic evaluation of calculate_bioink on the ear catalog for any
nonzero organ volume. -/
theorem bioink_ear_ok (v w : ℚ) (hv : v ≠ 0) :
    calculate_bioink ("ear") v w = .ok
      { organ_type := "ear"
        total_volume := v * 1.25
        components := [
          ⟨"alginate", 0.018, v * 1.25 * 0.018, v * 1.25 * 0.018 * 1.6⟩,
          ⟨"gelatin", 0.045, v * 1.25 * 0.045, v * 1.25 * 0.045 * 1.27⟩,
          ⟨"hyaluronic_acid", 0.006, v * 1.25 * 0.006, v * 1.25 * 0.006 * 1.2⟩,
          ⟨"chondroitin_sulfate", 0.008, v * 1.25 * 0.008, v * 1.25 * 0.008 * 1.25⟩,
          ⟨"agarose", 0.005, v * 1.25 * 0.005, v * 1.25 * 0.005 * 1.02⟩,
          ⟨"calcium_chloride", 0.0009, v * 1.25 * 0.0009, v * 1.25 * 0.0009 * 2.15⟩,
          ⟨"pbs_medium", (v * 1.25 - v * 1.25 * 0.0829) / (v * 1.25),
            v * 1.25 - v * 1.25 * 0.0829, (v * 1.25 - v * 1.25 * 0.0829) * 1⟩]
        printing_viscosity := 2000
        patient_weight := w
        estimated_printing_time := ⟨v * 1.25 / 15, v * 1.25 / 15 * 60, 15⟩
        shelf_life_hours := 72 } := by
  have ht : ¬ (v * 1.25 = 0) := mul_ne_zero hv (by norm_num)
  simp only [calculate_bioink, bf_ear, earBioinkSpec, List.cons_append, List.nil_append,
    processComponents, md_alginate, md_gelatin, md_ha, md_chondroitin, md_agarose, md_cacl,
    estimate_printing_time, pr_ear, sl_ear, ht, if_false,
    Except.ok.injEq, BioinkResult.mk.injEq, List.cons.injEq, ComponentEntry.mk.injEq]
  norm_num
  and_intros <;> ring

/-- At organ volume zero the heart bioink call hits the zero division. -/
theorem bioink_heart_zero (w : ℚ) :
    calculate_bioink ("heart") 0 w = .error .zeroDivision := by
  simp only [calculate_bioink, bf_heart, heartBioinkSpec, List.cons_append, List.nil_append,
    processComponents, md_alginate, md_gelatin, md_ha, md_collagen, md_fibrinogen, md_cacl,
    md_thrombin]
  rw [if_pos (by norm_num)]

/-- At organ volume zero the liver bioink call hits the zero division. -/
theorem bioink_liver_zero (w : ℚ) :
    calculate_bioink ("liver") 0 w = .error .zeroDivision := by
  simp only [calculate_bioink, bf_liver, liverBioinkSpec, List.cons_append, List.nil_append,
    processComponents, md_alginate, md_gelatin, md_ha, md_chitosan, md_ecm, md_cacl,
    md_genipin]
  rw [if_pos (by norm_num)]

/-- At organ volume zero the kidney bioink call hits the zero division. -/
theorem bioink_kidney_zero (w : ℚ) :
    calculate_bioink ("kidney") 0 w = .error .zeroDivision := by
  simp only [calculate_bioink, bf_kidney, kidneyBioinkSpec, List.cons_append, List.nil_append,
    processComponents, md_alginate, md_gelatin, md_ha, md_peg, md_laminin, md_cacl,
    md_photoinitiator]
  rw [if_pos (by norm_num)]

/-- At organ volume zero the ear bioink call hits the zero division. -/
theorem bioink_ear_zero (w : ℚ) :
    calculate_bioink ("ear") 0 w = .error .zeroDivision := by
  simp only [calculate_bioink, bf_ear, earBioinkSpec, List.cons_append, List.nil_append,
    processComponents, md_alginate, md_gelatin, md_ha, md_chondroitin, md_agarose, md_cacl]
  rw [if_pos (by norm_num)]

theorem op_heart : organ_parameters ("heart") = some heartParams := by
  simp [organ_parameters]

theorem op_liver : organ_parameters ("liver") = some liverParams := by
  simp [organ_parameters]

theorem op_kidney : organ_parameters ("kidney") = some kidneyParams := by
  simp [organ_parameters]

theorem op_ear : organ_parameters ("ear") = some earParams := by
  simp [organ_parameters]

/-- Python int() of an exact integer value is that integer. -/
theorem pyInt_intCast (a : ℤ) : pyInt (.num (a : ℚ)) = .ok a := by
  simp only [pyInt, Except.ok.injEq]
  split
  · exact Int.ceil_intCast a
  · exact Int.floor_intCast a

/-- On numeric inputs with an exact integer age, calculate_organ_size reduces
to the organSize record. -/
theorem calculate_organ_size_num (o : String) (p : OrganParams)
    (hp : organ_parameters o = some p) (hq wq : ℚ) (a : ℤ) :
    calculate_organ_size o (.num hq) (.num wq) (.num (a : ℚ)) =
      .ok (organSize p hq wq a) := by
  simp only [calculate_organ_size, hp, pyFloat, pyInt_intCast]

/-- The reference patient has scale factor one for every archetype. -/
theorem organScale_ref (p : OrganParams) : organScale p 175 70 30 = 1 := by
  have h1 : ((175 : ℚ) : ℝ) / 175 = 1 := by norm_num
  have h2 : ((70 : ℚ) : ℝ) / 70 = 1 := by norm_num
  have h3 : ageFactor 30 = 1 := by norm_num [ageFactor]
  rw [organScale, h1, h2, h3, Real.one_rpow, Real.one_rpow]
  norm_num

/-- The reference patient reproduces base volume and dimensions exactly. -/
theorem organSize_ref (p : OrganParams) :
    organSize p 175 70 30 =
      ⟨(p.base_volume : ℝ), ⟨(p.length : ℝ), (p.width : ℝ), (p.height : ℝ)⟩, 1⟩ := by
  rw [organSize, organScale_ref, Real.one_rpow]
  norm_num

/-- Zero height zeroes the scale factor. -/
theorem organScale_zero_height (p : OrganParams) (hp : (p.h_exp : ℝ) ≠ 0) (w : ℚ) (a : ℤ) :
    organScale p 0 w a = 0 := by
  rw [organScale]
  norm_num [Real.zero_rpow hp]

/-- When the age factor vanishes, so does the scale factor. -/
theorem organScale_age_zero (p : OrganParams) (h w : ℚ) (a : ℤ) (ha : ageFactor a = 0) :
    organScale p h w a = 0 := by
  rw [organScale, ha, mul_zero]

/-- A vanished scale factor collapses the whole organ size record to zero. -/
theorem organSize_of_scale_zero (p : OrganParams) (h w : ℚ) (a : ℤ)
    (hs : organScale p h w a = 0) :
    organSize p h w a = ⟨0, ⟨0, 0, 0⟩, 0⟩ := by
  rw [organSize, hs, Real.zero_rpow (by norm_num : ((1 : ℝ) / 3) ≠ 0)]
  norm_num

/-- The age factor at 530 years is exactly zero. -/
theorem ageFactor_530 : ageFactor 530 = 0 := by
  norm_num [ageFactor]

theorem sp_heart : scaffold_profiles ("heart") = some heartScaffold := by
  simp [scaffold_profiles]

theorem sp_kidney : scaffold_profiles ("kidney") = some kidneyScaffold := by
  simp [scaffold_profiles]

/-- Symbolic evaluation of calculate_materials for any organ present in the
scaffold catalog. -/
theorem materials_ok (o : String) (cfg : List (String × ScaffoldEntry))
    (hc : scaffold_profiles o = some cfg) (v : ℚ) :
    calculate_materials o v = .ok
      { organ_type := o
        bioink_volume_ml := v
        scaffold_materials := calculate_scaffold_materials cfg v
        biological_materials := calculate_biological_materials o v
        post_processing := calculate_post_processing_materials o v
        cost_breakdown := calculate_total_cost (calculate_scaffold_materials cfg v)
          (calculate_biological_materials o v) (calculate_post_processing_materials o v) } := by
  simp only [calculate_materials, hc]

/-- Lookup failure for an organ outside the scaler catalog. -/
theorem organ_parameters_none (o : String) (h1 : o ≠ "heart") (h2 : o ≠ "liver")
    (h3 : o ≠ "kidney") (h4 : o ≠ "ear") : organ_parameters o = none := by
  simp [organ_parameters, h1, h2, h3, h4]

/-- Lookup failure for an organ outside the bioink catalog. -/
theorem bioink_formulations_none (o : String) (h1 : o ≠ "heart") (h2 : o ≠ "liver")
    (h3 : o ≠ "kidney") (h4 : o ≠ "ear") : bioink_formulations o = none := by
  simp [bioink_formulations, h1, h2, h3, h4]

/-- Lookup failure for an organ outside the scaffold catalog. -/
theorem scaffold_profiles_none (o : String) (h1 : o ≠ "heart") (h2 : o ≠ "liver")
    (h3 : o ≠ "kidney") (h4 : o ≠ "ear") : scaffold_profiles o = none := by
  simp [scaffold_profiles, h1, h2, h3, h4]

/-- Strict monotonicity of the scaled volume in height, for positive base
volume, positive exponents and a positive age factor. -/
theorem organVolume_mono_height (p : OrganParams) (hb : 0 < p.base_volume)
    (hhe : 0 < p.h_exp) (a : ℤ) (ha : 0 < ageFactor a) (h1 h2 w : ℚ)
    (h1p : 0 < h1) (hlt : h1 < h2) (wp : 0 < w) :
    (organSize p h1 w a).volume < (organSize p h2 w a).volume := by
  have h1r : (0 : ℝ) < (h1 : ℝ) := by exact_mod_cast h1p
  have hltr : ((h1 : ℝ) / 175) < ((h2 : ℝ) / 175) := by
    have : (h1 : ℝ) < (h2 : ℝ) := by exact_mod_cast hlt
    linarith
  have hwr : (0 : ℝ) < (w : ℝ) := by exact_mod_cast wp
  have her : (0 : ℝ) < (p.h_exp : ℝ) := by exact_mod_cast hhe
  have hx : ((h1 : ℝ) / 175) ^ (p.h_exp : ℝ) < ((h2 : ℝ) / 175) ^ (p.h_exp : ℝ) :=
    Real.rpow_lt_rpow (by positivity) hltr her
  have hw0 : (0 : ℝ) < ((w : ℝ) / 70) ^ (p.w_exp : ℝ) :=
    Real.rpow_pos_of_pos (by positivity) _
  have hbr : (0 : ℝ) < (p.base_volume : ℝ) := by exact_mod_cast hb
  simp only [organSize, organScale]
  apply mul_lt_mul_of_pos_left _ hbr
  exact mul_lt_mul_of_pos_right (mul_lt_mul_of_pos_right hx hw0) ha

/-- Strict monotonicity of the scaled volume in weight, for positive base
volume, positive exponents and a positive age factor. -/
theorem organVolume_mono_weight (p : OrganParams) (hb : 0 < p.base_volume)
    (hwe : 0 < p.w_exp) (a : ℤ) (ha : 0 < ageFactor a) (h w1 w2 : ℚ)
    (hp : 0 < h) (w1p : 0 < w1) (hlt : w1 < w2) :
    (organSize p h w1 a).volume < (organSize p h w2 a).volume := by
  have w1r : (0 : ℝ) < (w1 : ℝ) := by exact_mod_cast w1p
  have hltr : ((w1 : ℝ) / 70) < ((w2 : ℝ) / 70) := by
    have : (w1 : ℝ) < (w2 : ℝ) := by exact_mod_cast hlt
    linarith
  have hhr : (0 : ℝ) < (h : ℝ) := by exact_mod_cast hp
  have her : (0 : ℝ) < (p.w_exp : ℝ) := by exact_mod_cast hwe
  have hx : ((w1 : ℝ) / 70) ^ (p.w_exp : ℝ) < ((w2 : ℝ) / 70) ^ (p.w_exp : ℝ) :=
    Real.rpow_lt_rpow (by positivity) hltr her
  have hh0 : (0 : ℝ) < ((h : ℝ) / 175) ^ (p.h_exp : ℝ) :=
    Real.rpow_pos_of_pos (by positivity) _
  have hbr : (0 : ℝ) < (p.base_volume : ℝ) := by exact_mod_cast hb
  simp only [organSize, organScale]
  apply mul_lt_mul_of_pos_left _ hbr
  exact mul_lt_mul_of_pos_right (mul_lt_mul_of_pos_left hx hh0) ha

/-- C1: in every formulation returned by calculate_bioink, the volumes of the
base and crosslinking components plus the volume of the solvent component
pbs_medium sum to total_volume exactly; the solvent is the residual
total_volume minus the accumulated solids volume and its mass equals its
volume times density 1.0. -/
theorem claim_c1_bioink_volume_conservation :
    ∀ (o : String) (v w : ℚ) (f : BioinkResult), calculate_bioink o v w = .ok f →
      ((f.components.map (fun c => c.volume_ml)).sum = f.total_volume ∧
       ∃ cs e, f.components = cs ++ [e] ∧ e.name = "pbs_medium" ∧
         (cs.map (fun c => c.volume_ml)).sum + e.volume_ml = f.total_volume ∧
         e.volume_ml = f.total_volume - (cs.map (fun c => c.volume_ml)).sum ∧
         e.mass_g = e.volume_ml * 1) := by
  intro o v w f h
  simp only [calculate_bioink] at h
  cases hbf : bioink_formulations o with
  | none =>
    simp only [hbf] at h
    exact Except.noConfusion h
  | some spec =>
    simp only [hbf] at h
    cases hpc : processComponents (v * 1.25) (spec.base_formulation ++ spec.crosslinking_agents) with
    | error e =>
      simp only [hpc] at h
      exact Except.noConfusion h
    | ok pr =>
      simp only [hpc] at h
      by_cases hz : v * 1.25 = 0
      · rw [if_pos hz] at h
        simp at h
      · rw [if_neg hz] at h
        simp only [Except.ok.injEq] at h
        have hs : (pr.1.map (fun c => c.volume_ml)).sum = pr.2 :=
          processComponents_sum (v * 1.25) _ pr.1 pr.2 (by rw [hpc])
        rw [← h]
        constructor
        · simp only [List.map_append, List.sum_append, List.map_cons, List.map_nil,
            List.sum_cons, List.sum_nil, hs]
          ring
        · refine ⟨pr.1, _, rfl, rfl, ?_, ?_, ?_⟩
          · simp only [hs]
            ring
          · simp only [hs]
          · simp only []

/-- Witness for C1: the concrete heart formulation at organ volume 8 ml. -/
theorem claim_c1_witness :
    calculate_bioink ("heart") 8 70 = .ok heartFormulation8 ∧
    ((heartFormulation8.components.map (fun c => c.volume_ml)).sum =
        heartFormulation8.total_volume ∧
     ∃ cs e, heartFormulation8.components = cs ++ [e] ∧ e.name = "pbs_medium" ∧
       (cs.map (fun c => c.volume_ml)).sum + e.volume_ml = heartFormulation8.total_volume ∧
       e.volume_ml = heartFormulation8.total_volume - (cs.map (fun c => c.volume_ml)).sum ∧
       e.mass_g = e.volume_ml * 1) := by
  have h8 : calculate_bioink ("heart") 8 70 = .ok heartFormulation8 := by
    rw [bioink_heart_ok 8 70 (by norm_num)]
    simp only [heartFormulation8, Except.ok.injEq, BioinkResult.mk.injEq,
      List.cons.injEq, ComponentEntry.mk.injEq, PrintTime.mk.injEq]
    norm_num
  exact ⟨h8, claim_c1_bioink_volume_conservation ("heart") 8 70 heartFormulation8 h8⟩

/-- C2: for every supported archetype the reference patient (height 175,
weight 70, age 30) has scale factor exactly 1, so volume and dimensions equal
the base constants; for the heart this gives volume 310 ml and bioink total
volume 310 * 1.25 = 387.5 ml. -/
theorem claim_c2_reference_patient :
    (∀ (o : String) (p : OrganParams), organ_parameters o = some p →
       calculate_organ_size o (.num 175) (.num 70) (.num 30) =
         .ok ⟨(p.base_volume : ℝ),
              ⟨(p.length : ℝ), (p.width : ℝ), (p.height : ℝ)⟩, 1⟩) ∧
    calculate_organ_size ("heart") (.num 175) (.num 70) (.num 30) =
      .ok ⟨310, ⟨12, 8.5, 6⟩, 1⟩ ∧
    (∃ f, calculate_bioink ("heart") 310 70 = .ok f ∧
      f.total_volume = 310 * 1.25 ∧ f.total_volume = 387.5) := by
  have h30 : ((30 : ℤ) : ℚ) = 30 := by norm_num
  have main : ∀ (o : String) (p : OrganParams), organ_parameters o = some p →
      calculate_organ_size o (.num 175) (.num 70) (.num 30) =
        .ok ⟨(p.base_volume : ℝ), ⟨(p.length : ℝ), (p.width : ℝ), (p.height : ℝ)⟩, 1⟩ := by
    intro o p hp
    have h := calculate_organ_size_num o p hp 175 70 30
    rw [h30] at h
    rw [h, organSize_ref]
  refine ⟨main, ?_, ?_⟩
  · rw [main ("heart") heartParams op_heart]
    simp [heartParams]
  · refine ⟨_, bioink_heart_ok 310 70 (by norm_num), by norm_num, by norm_num⟩

/-- Witness for C2 at the heart archetype. -/
theorem claim_c2_witness :
    organ_parameters ("heart") = some heartParams ∧
    calculate_organ_size ("heart") (.num 175) (.num 70) (.num 30) =
      .ok ⟨(heartParams.base_volume : ℝ),
           ⟨(heartParams.length : ℝ), (heartParams.width : ℝ), (heartParams.height : ℝ)⟩, 1⟩ :=
  ⟨op_heart, claim_c2_reference_patient.1 ("heart") heartParams op_heart⟩

/-- C3: in every output of calculate_materials the eight category costs are
the scaffold, biological, culture-medium, antibiotics, maturation and
quality-control rollups plus labor 2500 and equipment 800; subtotal is their
sum, the overhead is 20 percent of the subtotal and the total estimated cost
equals subtotal times 1.20 exactly. -/
theorem claim_c3_cost_rollup :
    ∀ (o : String) (v : ℚ) (out : MaterialRequirement), calculate_materials o v = .ok out →
      out.cost_breakdown.scaffold_materials =
          (out.scaffold_materials.map (fun pr => pr.2.cost_usd)).sum ∧
      out.cost_breakdown.biological_materials =
          (out.biological_materials.map (fun pr => pr.2.cost_usd)).sum ∧
      out.cost_breakdown.culture_medium = out.post_processing.culture_total_cost ∧
      out.cost_breakdown.antibiotics =
          out.post_processing.antibiotics_ml * out.post_processing.antibiotics_cost_per_ml ∧
      out.cost_breakdown.maturation = out.post_processing.maturation_cost ∧
      out.cost_breakdown.quality_control =
          (out.post_processing.quality_control.map (fun pr => pr.2)).sum ∧
      out.cost_breakdown.labor_estimate = 2500 ∧
      out.cost_breakdown.equipment_usage = 800 ∧
      out.cost_breakdown.subtotal =
        out.cost_breakdown.scaffold_materials + out.cost_breakdown.biological_materials +
        out.cost_breakdown.culture_medium + out.cost_breakdown.antibiotics +
        out.cost_breakdown.maturation + out.cost_breakdown.quality_control +
        out.cost_breakdown.labor_estimate + out.cost_breakdown.equipment_usage ∧
      out.cost_breakdown.overhead_20_percent = out.cost_breakdown.subtotal * 0.20 ∧
      out.cost_breakdown.total_estimated_cost = out.cost_breakdown.subtotal * 1.20 := by
  intro o v out h
  simp only [calculate_materials] at h
  cases hc : scaffold_profiles o with
  | none =>
    simp only [hc] at h
    exact Except.noConfusion h
  | some cfg =>
    simp only [hc, Except.ok.injEq] at h
    rw [← h]
    simp only [calculate_total_cost]
    and_intros <;> first
      | rfl
      | ring

/-- Witness for C3: the kidney material requirement at bioink volume 100. -/
theorem claim_c3_witness :
    calculate_materials ("kidney") 100 = .ok kidneyMaterialOut ∧
    (kidneyMaterialOut.cost_breakdown.scaffold_materials =
        (kidneyMaterialOut.scaffold_materials.map (fun pr => pr.2.cost_usd)).sum ∧
     kidneyMaterialOut.cost_breakdown.biological_materials =
        (kidneyMaterialOut.biological_materials.map (fun pr => pr.2.cost_usd)).sum ∧
     kidneyMaterialOut.cost_breakdown.culture_medium =
        kidneyMaterialOut.post_processing.culture_total_cost ∧
     kidneyMaterialOut.cost_breakdown.antibiotics =
        kidneyMaterialOut.post_processing.antibiotics_ml *
          kidneyMaterialOut.post_processing.antibiotics_cost_per_ml ∧
     kidneyMaterialOut.cost_breakdown.maturation =
        kidneyMaterialOut.post_processing.maturation_cost ∧
     kidneyMaterialOut.cost_breakdown.quality_control =
        (kidneyMaterialOut.post_processing.quality_control.map (fun pr => pr.2)).sum ∧
     kidneyMaterialOut.cost_breakdown.labor_estimate = 2500 ∧
     kidneyMaterialOut.cost_breakdown.equipment_usage = 800 ∧
     kidneyMaterialOut.cost_breakdown.subtotal =
       kidneyMaterialOut.cost_breakdown.scaffold_materials +
       kidneyMaterialOut.cost_breakdown.biological_materials +
       kidneyMaterialOut.cost_breakdown.culture_medium +
       kidneyMaterialOut.cost_breakdown.antibiotics +
       kidneyMaterialOut.cost_breakdown.maturation +
       kidneyMaterialOut.cost_breakdown.quality_control +
       kidneyMaterialOut.cost_breakdown.labor_estimate +
       kidneyMaterialOut.cost_breakdown.equipment_usage ∧
     kidneyMaterialOut.cost_breakdown.overhead_20_percent =
        kidneyMaterialOut.cost_breakdown.subtotal * 0.20 ∧
     kidneyMaterialOut.cost_breakdown.total_estimated_cost =
        kidneyMaterialOut.cost_breakdown.subtotal * 1.20) := by
  have hk : calculate_materials ("kidney") 100 = .ok kidneyMaterialOut :=
    materials_ok ("kidney") kidneyScaffold sp_kidney 100
  exact ⟨hk, claim_c3_cost_rollup ("kidney") 100 kidneyMaterialOut hk⟩

/-- C4: every organ type outside heart, liver, kidney, ear fails with the
unsupported-organ ValueError independently in the scaler, the bioink
calculator and the material calculator, with no fallback result. -/
theorem claim_c4_unsupported_organ :
    ∀ o : String, o ∉ (["heart", "liver", "kidney", "ear"] : List String) →
      (∀ hv wv av, calculate_organ_size o hv wv av = .error .valueError) ∧
      (∀ v w : ℚ, calculate_bioink o v w = .error .valueError) ∧
      (∀ v : ℚ, calculate_materials o v = .error .valueError) := by
  intro o ho
  simp only [List.mem_cons, List.not_mem_nil, or_false, not_or] at ho
  obtain ⟨h1, h2, h3, h4⟩ := ho
  refine ⟨?_, ?_, ?_⟩
  · intro hv wv av
    simp only [calculate_organ_size, organ_parameters_none o h1 h2 h3 h4]
  · intro v w
    simp only [calculate_bioink, bioink_formulations_none o h1 h2 h3 h4]
  · intro v
    simp only [calculate_materials, scaffold_profiles_none o h1 h2 h3 h4]

/-- Witness for C4 at the unsupported organ type brain. -/
theorem claim_c4_witness :
    ("brain" ∉ (["heart", "liver", "kidney", "ear"] : List String)) ∧
    calculate_organ_size ("brain") (.num 175) (.num 70) (.num 30) = .error .valueError ∧
    calculate_bioink ("brain") 100 70 = .error .valueError ∧
    calculate_materials ("brain") 125 = .error .valueError := by
  have hb : ("brain" ∉ (["heart", "liver", "kidney", "ear"] : List String)) := by decide
  exact ⟨hb, (claim_c4_unsupported_organ ("brain") hb).1 _ _ _,
    (claim_c4_unsupported_organ ("brain") hb).2.1 100 70,
    (claim_c4_unsupported_organ ("brain") hb).2.2 125⟩

/-- C5 counterexample: at height 0 (non-positive) with valid weight and age
the scaler does not fail; it silently returns the degenerate size with
volume, dimensions and scale factor all zero. -/
theorem claim_c5_counterexample :
    calculate_organ_size ("heart") (.num 0) (.num 70) (.num 30) =
      .ok ⟨0, ⟨0, 0, 0⟩, 0⟩ := by
  have h30 : ((30 : ℤ) : ℚ) = 30 := by norm_num
  have h := calculate_organ_size_num ("heart") heartParams op_heart 0 70 30
  rw [h30] at h
  rw [h, organSize_of_scale_zero heartParams 0 70 30
    (organScale_zero_height heartParams (by norm_num [heartParams]) 70 30)]

/-- C5 amended: the scaler fails with the invalid-input ValueError exactly on
inputs that are not coercible to the numeric types; on any numeric inputs,
positive or not, it succeeds and returns a result (no positivity check). -/
theorem claim_c5_amended :
    ∀ (o : String) (p : OrganParams), organ_parameters o = some p →
      (∀ hv wv av, (hv = .nonNumeric ∨ wv = .nonNumeric ∨ av = .nonNumeric) →
         calculate_organ_size o hv wv av = .error .valueError) ∧
      (∀ h w a : ℚ, ∃ r, calculate_organ_size o (.num h) (.num w) (.num a) = .ok r) := by
  intro o p hp
  constructor
  · intro hv wv av hbad
    rcases hv with q1 | _
    · rcases wv with q2 | _
      · rcases av with q3 | _
        · rcases hbad with hb | hb | hb <;> exact PyVal.noConfusion hb
        · simp [calculate_organ_size, hp, pyFloat, pyInt]
      · simp [calculate_organ_size, hp, pyFloat]
    · simp [calculate_organ_size, hp, pyFloat]
  · intro h w a
    refine ⟨organSize p h w (if a < 0 then ⌈a⌉ else ⌊a⌋), ?_⟩
    simp [calculate_organ_size, hp, pyFloat, pyInt]

/-- Witness for the amended C5 at the heart archetype. -/
theorem claim_c5_witness :
    organ_parameters ("heart") = some heartParams ∧
    calculate_organ_size ("heart") .nonNumeric (.num 70) (.num 30) = .error .valueError ∧
    (∃ r, calculate_organ_size ("heart") (.num 175) (.num 70) (.num 30) = .ok r) :=
  ⟨op_heart, (claim_c5_amended ("heart") heartParams op_heart).1 _ _ _ (Or.inl rfl),
   (claim_c5_amended ("heart") heartParams op_heart).2 175 70 30⟩

/-- C6 as the code stands: at a negative organ volume the accumulated solids
volume exceeds the total volume, yet calculate_bioink raises no consistency
error and returns the formulation with a negative, unclamped pbs_medium
solvent volume. -/
theorem claim_c6_negative_solvent_unflagged :
    calculate_bioink ("heart") (-100) 70 = .ok heartFormulationNeg ∧
    heartFormulationNeg.total_volume < solidsVolumeExcept heartFormulationNeg ("pbs_medium") ∧
    componentVolume heartFormulationNeg ("pbs_medium") < 0 := by
  have hn : calculate_bioink ("heart") (-100) 70 = .ok heartFormulationNeg := by
    rw [bioink_heart_ok (-100) 70 (by norm_num)]
    simp only [heartFormulationNeg, Except.ok.injEq, BioinkResult.mk.injEq,
      List.cons.injEq, ComponentEntry.mk.injEq, PrintTime.mk.injEq]
    norm_num
  have e1 : (("alginate" : String) != "pbs_medium") = true := by decide
  have e2 : (("gelatin" : String) != "pbs_medium") = true := by decide
  have e3 : (("hyaluronic_acid" : String) != "pbs_medium") = true := by decide
  have e4 : (("collagen" : String) != "pbs_medium") = true := by decide
  have e5 : (("fibrinogen" : String) != "pbs_medium") = true := by decide
  have e6 : (("calcium_chloride" : String) != "pbs_medium") = true := by decide
  have e7 : (("thrombin" : String) != "pbs_medium") = true := by decide
  have e8 : (("pbs_medium" : String) != "pbs_medium") = false := by decide
  have f1 : (("alginate" : String) == "pbs_medium") = false := by decide
  have f2 : (("gelatin" : String) == "pbs_medium") = false := by decide
  have f3 : (("hyaluronic_acid" : String) == "pbs_medium") = false := by decide
  have f4 : (("collagen" : String) == "pbs_medium") = false := by decide
  have f5 : (("fibrinogen" : String) == "pbs_medium") = false := by decide
  have f6 : (("calcium_chloride" : String) == "pbs_medium") = false := by decide
  have f7 : (("thrombin" : String) == "pbs_medium") = false := by decide
  have f8 : (("pbs_medium" : String) == "pbs_medium") = true := by decide
  refine ⟨hn, ?_, ?_⟩
  · norm_num [solidsVolumeExcept, heartFormulationNeg, List.filter,
      e1, e2, e3, e4, e5, e6, e7, e8]
  · norm_num [componentVolume, heartFormulationNeg, List.find?,
      f1, f2, f3, f4, f5, f6, f7, f8]

/-- C7: for positive weight the patient adjustment factor is
0.8 + 0.4 * log2(weight/70) clamped to the interval from 0.5 to 1.5, hence
always inside that interval; for non-positive weight it is exactly 1 and no
error is raised. -/
theorem claim_c7_patient_adjustment :
    ∀ w : ℚ,
      (0 < w →
        calculate_patient_adjustment w =
          max 0.5 (min 1.5 (0.8 + 0.4 * (Real.log ((w : ℝ) / 70) / Real.log 2))) ∧
        (0.5 : ℝ) ≤ calculate_patient_adjustment w ∧
        calculate_patient_adjustment w ≤ 1.5) ∧
      (w ≤ 0 → calculate_patient_adjustment w = 1) := by
  intro w
  constructor
  · intro hw
    rw [calculate_patient_adjustment, if_pos hw]
    refine ⟨by rw [mul_div_assoc], le_max_left _ _, ?_⟩
    exact max_le (by norm_num) (min_le_left _ _)
  · intro hw
    rw [calculate_patient_adjustment, if_neg (not_lt.2 hw)]

/-- Witness for C7 at the reference weight 70 kg. -/
theorem claim_c7_witness :
    ((0 : ℚ) < 70) ∧
    (calculate_patient_adjustment 70 =
        max 0.5 (min 1.5 (0.8 + 0.4 * (Real.log (((70 : ℚ) : ℝ) / 70) / Real.log 2))) ∧
     (0.5 : ℝ) ≤ calculate_patient_adjustment 70 ∧
     calculate_patient_adjustment 70 ≤ 1.5) ∧
    ((70 : ℚ) ≤ 0 → calculate_patient_adjustment 70 = 1) :=
  ⟨by norm_num, (claim_c7_patient_adjustment 70).1 (by norm_num),
   (claim_c7_patient_adjustment 70).2⟩

/-- C8: a case-insensitive match for enlarged in the free-text requirements
multiplies every vertex coordinate by 1.1; otherwise a match for reduced
multiplies every coordinate by 0.9; otherwise the mesh is returned unchanged.
The first match wins, so at most one scaling ever applies. -/
theorem claim_c8_special_requirements :
    ∀ (m : Mesh) (req : String),
      (strContains (lowerStr req) ("enlarged") = true →
        apply_special_requirements m req =
          ⟨m.vertices.map (fun v => (1.1 * v.1, 1.1 * v.2.1, 1.1 * v.2.2)), m.faces⟩) ∧
      (strContains (lowerStr req) ("enlarged") = false →
       strContains (lowerStr req) ("reduced") = true →
        apply_special_requirements m req =
          ⟨m.vertices.map (fun v => (0.9 * v.1, 0.9 * v.2.1, 0.9 * v.2.2)), m.faces⟩) ∧
      (strContains (lowerStr req) ("enlarged") = false →
       strContains (lowerStr req) ("reduced") = false →
        apply_special_requirements m req = m) := by
  intro m req
  refine ⟨?_, ?_, ?_⟩
  · intro hE
    rw [apply_special_requirements, if_pos hE]
    rfl
  · intro hE hR
    rw [apply_special_requirements, if_neg (by simp [hE]), if_pos hR]
    rfl
  · intro hE hR
    rw [apply_special_requirements, if_neg (by simp [hE]), if_neg (by simp [hR])]

/-- Witness for C8: a requirements string containing both keywords scales by
1.1 only. -/
theorem claim_c8_witness :
    strContains (lowerStr ("ENlarged and REDUCED")) ("enlarged") = true ∧
    strContains (lowerStr ("ENlarged and REDUCED")) ("reduced") = true ∧
    apply_special_requirements ⟨[(1, 2, 3)], [(0, 1, 2)]⟩ ("ENlarged and REDUCED") =
      ⟨([((1 : ℚ), (2 : ℚ), (3 : ℚ))].map (fun v => (1.1 * v.1, 1.1 * v.2.1, 1.1 * v.2.2))),
       [(0, 1, 2)]⟩ :=
  ⟨by decide, by decide,
   (claim_c8_special_requirements ⟨[(1, 2, 3)], [(0, 1, 2)]⟩ ("ENlarged and REDUCED")).1
     (by decide)⟩

/-- C9 counterexample: at age 530 the unclamped age factor is zero, so the
volumes at heights 175 and 350 (weight 70 fixed) are both zero and the
volume is not strictly increasing in height at that fixed age. -/
theorem claim_c9_counterexample :
    (175 : ℚ) < 350 ∧
    calculate_organ_size ("heart") (.num 175) (.num 70) (.num 530) = .ok ⟨0, ⟨0, 0, 0⟩, 0⟩ ∧
    calculate_organ_size ("heart") (.num 350) (.num 70) (.num 530) = .ok ⟨0, ⟨0, 0, 0⟩, 0⟩ := by
  have h530 : ((530 : ℤ) : ℚ) = 530 := by norm_num
  have ha : ∀ hq : ℚ, calculate_organ_size ("heart") (.num hq) (.num 70) (.num 530) =
      .ok ⟨0, ⟨0, 0, 0⟩, 0⟩ := by
    intro hq
    have h := calculate_organ_size_num ("heart") heartParams op_heart hq 70 530
    rw [h530] at h
    rw [h, organSize_of_scale_zero heartParams hq 70 530
      (organScale_age_zero heartParams hq 70 530 ageFactor_530)]
  exact ⟨by norm_num, ha 175, ha 350⟩

/-- C9 amended: for every supported archetype and every age whose age factor
is still positive (ages up to 529), the scaled volume is strictly increasing
in height for fixed positive weight and strictly increasing in weight for
fixed positive height, the organSize record being exactly what
calculate_organ_size returns on numeric inputs. -/
theorem claim_c9_amended :
    ∀ (o : String) (p : OrganParams), organ_parameters o = some p →
    ∀ a : ℤ, 0 < ageFactor a →
      (∀ h1 h2 w : ℚ, 0 < h1 → h1 < h2 → 0 < w →
        (organSize p h1 w a).volume < (organSize p h2 w a).volume) ∧
      (∀ h w1 w2 : ℚ, 0 < h → 0 < w1 → w1 < w2 →
        (organSize p h w1 a).volume < (organSize p h w2 a).volume) ∧
      (∀ hq wq : ℚ, calculate_organ_size o (.num hq) (.num wq) (.num (a : ℚ)) =
        .ok (organSize p hq wq a)) := by
  intro o p hp a ha
  have hpos : 0 < p.base_volume ∧ 0 < p.h_exp ∧ 0 < p.w_exp := by
    have hp2 := hp
    simp only [organ_parameters] at hp2
    split_ifs at hp2
    all_goals obtain rfl := Option.some.inj hp2
    all_goals norm_num [heartParams, liverParams, kidneyParams, earParams]
  obtain ⟨hb1, hb2, hb3⟩ := hpos
  exact ⟨fun h1 h2 w a1 a2 a3 => organVolume_mono_height p hb1 hb2 a ha h1 h2 w a1 a2 a3,
         fun h w1 w2 b1 b2 b3 => organVolume_mono_weight p hb1 hb3 a ha h w1 w2 b1 b2 b3,
         fun hq wq => calculate_organ_size_num o p hp hq wq a⟩

/-- Witness for the amended C9 at the heart archetype and age 30. -/
theorem claim_c9_witness :
    organ_parameters ("heart") = some heartParams ∧ (0 : ℝ) < ageFactor 30 ∧
    (organSize heartParams 175 70 30).volume < (organSize heartParams 180 70 30).volume ∧
    (organSize heartParams 175 70 30).volume < (organSize heartParams 175 80 30).volume ∧
    calculate_organ_size ("heart") (.num 175) (.num 70) (.num ((30 : ℤ) : ℚ)) =
      .ok (organSize heartParams 175 70 30) := by
  have ha : (0 : ℝ) < ageFactor 30 := by norm_num [ageFactor]
  have h := claim_c9_amended ("heart") heartParams op_heart 30 ha
  exact ⟨op_heart, ha, h.1 175 180 70 (by norm_num) (by norm_num) (by norm_num),
    h.2.1 175 70 80 (by norm_num) (by norm_num) (by norm_num), h.2.2 175 70⟩

/-- C10: for every supported organ the pbs_medium concentration division is
unguarded, so organ volume 0 (total volume 0) raises ZeroDivisionError
instead of returning a formulation, while any nonzero organ volume makes the
division well defined and the call succeed. -/
theorem claim_c10_zero_volume_division :
    ∀ (o : String) (spec : FormulationSpec), bioink_formulations o = some spec →
      (∀ w : ℚ, calculate_bioink o 0 w = .error .zeroDivision) ∧
      (∀ v w : ℚ, v ≠ 0 → ∃ f, calculate_bioink o v w = .ok f) := by
  intro o spec hs
  have hs2 := hs
  simp only [bioink_formulations] at hs2
  split_ifs at hs2 with hh hl hk he
  · subst hh
    exact ⟨fun w => bioink_heart_zero w, fun v w hv => ⟨_, bioink_heart_ok v w hv⟩⟩
  · subst hl
    exact ⟨fun w => bioink_liver_zero w, fun v w hv => ⟨_, bioink_liver_ok v w hv⟩⟩
  · subst hk
    exact ⟨fun w => bioink_kidney_zero w, fun v w hv => ⟨_, bioink_kidney_ok v w hv⟩⟩
  · subst he
    exact ⟨fun w => bioink_ear_zero w, fun v w hv => ⟨_, bioink_ear_ok v w hv⟩⟩

/-- Witness for C10 at the heart archetype. -/
theorem claim_c10_witness :
    bioink_formulations ("heart") = some heartBioinkSpec ∧
    calculate_bioink ("heart") 0 70 = .error .zeroDivision ∧
    (∃ f, calculate_bioink ("heart") 8 70 = .ok f) :=
  ⟨bf_heart, (claim_c10_zero_volume_division ("heart") heartBioinkSpec bf_heart).1 70,
   (claim_c10_zero_volume_division ("heart") heartBioinkSpec bf_heart).2 8 70 (by norm_num)⟩
